import Mathlib

/-!
Verification development for the nionswift derived-value subsystem.

Part 1 embeds `HistogramThread` from `HistogramPanel.py`: the pending-slot
hand-off between the notifying thread and the worker, together with the
reference-counting side effects (`add_ref` / `remove_ref`) that the methods
perform. Subjects (data items) are identified by natural numbers. Every
method is embedded as a function from the thread state to the new state
plus the ordered list of atomic actions it performs, so that ordering
claims (what happens before what) and counting claims (adds versus
removes) can both be stated.

Part 2 embeds `DataItemProcessor` from `model/DataItemProcessor.py`: the
dirty-flag / cached-value / in-progress state, the staleness check of
`get_data`, the scheduling hand-off, and the asynchronous body
`load_data_on_thread`, again with explicit action traces recording lock
acquisition and release so that lock-discipline claims can be settled.
-/

namespace Histogram

/-- Atomic observable actions performed by `HistogramThread` methods:
acquiring a reference, releasing a reference, and storing into the
pending slot (`self.__data_item = data_item`). -/
inductive HAction where
  | addRef (s : Nat)
  | removeRef (s : Nat)
  | store (d : Option Nat)
deriving DecidableEq, Repr

/-- State of `HistogramThread`: the pending slot `self.__data_item`,
holding at most one subject. -/
structure ThreadState where
  data_item : Option Nat
deriving DecidableEq, Repr

/-- `HistogramThread.handle_data` (HistogramPanel.py lines 42-48): under the
mutex, release a reference on the current occupant if any and store the new
value; then, after the mutex block, acquire a reference on the new value if
it is non-none. The action list records the order: release of the replaced
subject, then the store, then the acquisition on the new subject. -/
def handle_data (st : ThreadState) (d : Option Nat) : ThreadState × List HAction :=
  let removeOps : List HAction :=
    match st.data_item with
    | some o => [HAction.removeRef o]
    | none => []
  let addOps : List HAction :=
    match d with
    | some s => [HAction.addRef s]
    | none => []
  (⟨d⟩, removeOps ++ [HAction.store d] ++ addOps)

/-- `HistogramThread.grab_data` (lines 50-54): under the mutex, take the
pending subject and clear the slot. Returns the grabbed value and the new
state. -/
def grab_data (st : ThreadState) : Option Nat × ThreadState :=
  (st.data_item, ⟨none⟩)

/-- `HistogramThread.release_data` (lines 59-60): release one reference on
the grabbed subject. -/
def release_data (s : Nat) : List HAction :=
  [HAction.removeRef s]

/-- `HistogramThread.close` (lines 34-40): after stopping the loop, under
the mutex release a reference on the residual pending subject if any. The
slot itself is not written: the state is returned unchanged. -/
def close (st : ThreadState) : ThreadState × List HAction :=
  (st,
    match st.data_item with
    | some o => [HAction.removeRef o]
    | none => [])

/-- Events of a sequential history of the worker: a notification
(`handle_data` with a subject or none) or one worker loop pass
(`grab_data` followed, when the grabbed subject is non-none, by
`release_data`). -/
inductive HEvent where
  | notify (d : Option Nat)
  | loopPass
deriving DecidableEq, Repr

/-- One event step: the new thread state and the actions performed. -/
def stepEvent (st : ThreadState) (e : HEvent) : ThreadState × List HAction :=
  match e with
  | HEvent.notify d => handle_data st d
  | HEvent.loopPass =>
    let g := grab_data st
    match g.1 with
    | some s => (g.2, release_data s)
    | none => (g.2, [])

/-- Run a list of events from a state, collecting all actions in order. -/
def runEvents (st : ThreadState) : List HEvent → ThreadState × List HAction
  | [] => (st, [])
  | e :: es =>
    let r1 := stepEvent st e
    let r2 := runEvents r1.1 es
    (r2.1, r1.2 ++ r2.2)

/-- Recognizer for an `addRef` action on subject `s`. -/
def isAddOn (s : Nat) : HAction → Bool
  | HAction.addRef t => t == s
  | _ => false

/-- Recognizer for a `removeRef` action on subject `s`. -/
def isRemoveOn (s : Nat) : HAction → Bool
  | HAction.removeRef t => t == s
  | _ => false

/-- Recognizer for any `addRef` action. -/
def isAddAct : HAction → Bool
  | HAction.addRef _ => true
  | _ => false

/-- Recognizer for any `store` action. -/
def isStoreAct : HAction → Bool
  | HAction.store _ => true
  | _ => false

/-- Number of `add_ref` calls on subject `s` in an action list. -/
def countAdds (ops : List HAction) (s : Nat) : Nat :=
  ops.countP (isAddOn s)

/-- Number of `remove_ref` calls on subject `s` in an action list. -/
def countRemoves (ops : List HAction) (s : Nat) : Nat :=
  ops.countP (isRemoveOn s)

/-- 1 when the pending slot holds subject `s`, else 0. -/
def slotInd (st : ThreadState) (s : Nat) : Nat :=
  match st.data_item with
  | some t => if t == s then 1 else 0
  | none => 0

end Histogram

namespace Processor

/-- Atomic observable actions performed inside `DataItemProcessor.get_data`
and its nested asynchronous body `load_data_on_thread`
(model/DataItemProcessor.py). Lock actions record entry to and exit from
`with self.__mutex` blocks; the write actions record mutations of the
processor's own cache entry (`__cached_value`, `__cached_value_dirty`,
`__in_progress`), the event actions record `__finish_event` transitions,
and the item actions record calls into the owning item's cache API. -/
inductive PAction where
  | acquireLock
  | releaseLock
  | computeCall
  | writeCachedValue (v : Option Nat)
  | writeDirty (d : Option Bool)
  | writeInProgress (b : Bool)
  | setFinishEvent
  | clearFinishEvent
  | addSharedTask
  | itemSetCachedValueDirty
  | itemSetCachedValue
  | itemRemoveCachedValue
deriving DecidableEq, Repr

/-- The cache entry owned by a `DataItemProcessor` instance
(`__init__`, lines 8-16): cached value (`__cached_value`), tri-state dirty
flag (`__cached_value_dirty`: unset / clean / dirty), in-progress flag
(`__in_progress`) and the finish event (`__finish_event`, initially set). -/
structure ProcState where
  cached_value : Option Nat
  cached_value_dirty : Option Bool
  in_progress : Bool
  finish_event_set : Bool
deriving DecidableEq, Repr

/-- The owning item's cache slot, as seen through the Subject cache
interface for this processor's property name: the slot dirty flag reported
by `is_cached_value_dirty`, and the stored cached value (`none` when the
slot is absent; `set_cached_value` may store a none value). -/
structure ItemState where
  slot_dirty : Bool
  slot : Option (Option Nat)
deriving DecidableEq, Repr

/-- The result of `get_data_item()`: the data item whose `closed` flag and
`data_outputs` list `get_data` inspects (lines 55-58). Each output is
represented by its `.data` field. -/
structure DataItemState where
  closed : Bool
  data_outputs : List (Option Nat)
deriving DecidableEq, Repr

/-- `__get_item` (lines 21-22): `self.__weak_item() if self.__weak_item
else None`. `weak_item_set` says whether the weakref object itself exists
(it always does after `__init__`); `live` is what dereferencing the
weakref yields: `none` once the owner has been garbage-collected. -/
def get_item (weak_item_set : Bool) (live : Option ItemState) : Option ItemState :=
  if weak_item_set then live else none

/-- The staleness test of `get_data` (line 53):
`(self.__cached_value_dirty is not None and self.__cached_value_dirty) or
self.item.is_cached_value_dirty(name)`. The first disjunct is true exactly
when the local flag is set and dirty; only when it is false is the item
consulted, and if the item is `none` (owner collected) that attribute
access raises, modelled as `Except.error`. -/
def stalenessCheck (st : ProcState) (item : Option ItemState) : Except Unit Bool :=
  if st.cached_value_dirty = some true then Except.ok true
  else
    match item with
    | none => Except.error ()
    | some it => Except.ok it.slot_dirty

/-- The staleness rule exactly as the specification words it: local shadow
flag dirty-or-unset OR the Subject reports the named cache slot dirty.
Written from the spec sentence for comparison with `stalenessCheck`, which
is translated from the code. -/
def specStaleness (st : ProcState) (it : ItemState) : Bool :=
  (match st.cached_value_dirty with
   | none => true
   | some b => b) || it.slot_dirty

/-- `set_cached_value_dirty` (lines 37-39): calls
`self.item.set_cached_value_dirty(name)` then sets the local shadow flag
dirty. With a collected owner the first attribute access raises
(`Except.error`) and the local flag is not written. -/
def set_cached_value_dirty (item : Option ItemState) (st : ProcState) :
    Except Unit (ItemState × ProcState × List PAction) :=
  match item with
  | none => Except.error ()
  | some it =>
    Except.ok ({it with slot_dirty := true},
      {st with cached_value_dirty := some true},
      [PAction.itemSetCachedValueDirty, PAction.writeDirty (some true)])

/-- `data_item_changed` (lines 25-27): delegates to
`set_cached_value_dirty`. -/
def data_item_changed (item : Option ItemState) (st : ProcState) :
    Except Unit (ItemState × ProcState × List PAction) :=
  set_cached_value_dirty item st

/-- Outcome of the `get_data` synchronous path: the processor state after
the call, the ordered action trace, whether an asynchronous job was handed
to `add_shared_task`, whether the call raised (attribute error on a
collected owner), and the value returned to the caller (meaningful only
when `raised` is false). -/
structure GetDataResult where
  proc : ProcState
  trace : List PAction
  scheduled : Bool
  raised : Bool
  ret : Option Nat
deriving DecidableEq, Repr

/-- `get_data` synchronous body (lines 52-93), without running the
scheduled job: evaluate the staleness test; when stale and the data item
is not closed and has exactly one output, enter the mutex and, unless a
job is already in progress, set the in-progress flag, clear the finish
event and call `self.item.add_shared_task` (which itself raises when the
owner is collected, after the flag writes, with the mutex released on the
way out). Finally return the cached value if present, else
`get_default_data()` (`dflt`). -/
def get_data (item : Option ItemState) (di : DataItemState) (dflt : Option Nat)
    (st : ProcState) : GetDataResult :=
  match stalenessCheck st item with
  | Except.error _ => ⟨st, [], false, true, none⟩
  | Except.ok stale =>
    let retv : Option Nat :=
      match st.cached_value with
      | some v => some v
      | none => dflt
    if stale then
      if di.closed then ⟨st, [], false, false, retv⟩
      else if di.data_outputs.length = 1 then
        if st.in_progress then
          ⟨st, [PAction.acquireLock, PAction.releaseLock], false, false, retv⟩
        else
          match item with
          | none =>
            ⟨{st with in_progress := true, finish_event_set := false},
              [PAction.acquireLock, PAction.writeInProgress true,
               PAction.clearFinishEvent, PAction.releaseLock],
              false, true, none⟩
          | some _ =>
            ⟨{st with in_progress := true, finish_event_set := false},
              [PAction.acquireLock, PAction.writeInProgress true,
               PAction.clearFinishEvent, PAction.addSharedTask,
               PAction.releaseLock],
              true, false, retv⟩
      else ⟨st, [], false, false, retv⟩
    else ⟨st, [], false, false, retv⟩

/-- Result of the computation function `get_calculated_data`: a value
(possibly none) or a raised exception. -/
inductive ComputeResult where
  | ok (v : Option Nat)
  | exn
deriving DecidableEq, Repr

/-- Outcome of one run of `load_data_on_thread`: the ordered action trace,
the processor state and owning-item state after the run, the arguments
passed to `completion_fn` (empty when it was absent or never reached), and
whether the body raised out of the job. -/
structure LoadResult where
  trace : List PAction
  proc : ProcState
  item : Option ItemState
  completionCalls : List (Option Nat)
  raised : Bool
deriving DecidableEq, Repr

/-- The tail of every non-raising `load_data_on_thread` run (lines 82-84):
enter the mutex, clear the in-progress flag, leave the mutex, set the
finish event. -/
def finishActions : List PAction :=
  [PAction.acquireLock, PAction.writeInProgress false,
   PAction.releaseLock, PAction.setFinishEvent]

/-- State effect of the finishing tail: in-progress cleared, finish event
set. -/
def finishProc (st : ProcState) : ProcState :=
  {st with in_progress := false, finish_event_set := true}

/-- The no-result branch (lines 76-79): remove the item's cached value and
reset the local shadow cache to absent (value none, dirty flag unset). -/
def removalActions : List PAction :=
  [PAction.itemRemoveCachedValue, PAction.writeCachedValue none,
   PAction.writeDirty none]

/-- `load_data_on_thread` (lines 59-84), the asynchronous job body.
`upstream` is `data_outputs[0].data`; `compute` is `get_calculated_data`;
`dflt` is `get_default_data()`; `hasCompletion` says whether a
`completion_fn` was supplied; `item` is what `self.item` yields when the
body runs. When `upstream` is none the computation is skipped and the
no-result branch runs. When `compute` raises, the traceback is printed,
the finish event is set and the exception is re-raised: the in-progress
flag is not touched. When `compute` returns a value, it is stored in the
item's cache slot and in the shadow cache with the dirty flag cleared; a
none result then additionally runs the no-result branch and surfaces the
default to `completion_fn`. Attribute accesses on a collected owner
(`self.item.set_cached_value`, `self.item.remove_cached_value`) raise. -/
def load_data_on_thread (upstream : Option Nat) (compute : Nat → ComputeResult)
    (dflt : Option Nat) (hasCompletion : Bool)
    (item : Option ItemState) (st : ProcState) : LoadResult :=
  match upstream with
  | none =>
    match item with
    | none => ⟨[], st, none, [], true⟩
    | some it =>
      ⟨removalActions ++ finishActions,
        finishProc {st with cached_value := none, cached_value_dirty := none},
        some {it with slot := none},
        if hasCompletion then [dflt] else [], false⟩
  | some d =>
    match compute d with
    | ComputeResult.exn =>
      ⟨[PAction.computeCall, PAction.setFinishEvent],
        {st with finish_event_set := true}, item, [], true⟩
    | ComputeResult.ok v =>
      match item with
      | none => ⟨[PAction.computeCall], st, none, [], true⟩
      | some it =>
        let writeActs : List PAction :=
          [PAction.computeCall, PAction.itemSetCachedValue,
           PAction.writeCachedValue v, PAction.writeDirty (some false)]
        match v with
        | some w =>
          ⟨writeActs ++ finishActions,
            finishProc
              {st with cached_value := some w, cached_value_dirty := some false},
            some {it with slot := some (some w)},
            if hasCompletion then [some w] else [], false⟩
        | none =>
          ⟨writeActs ++ removalActions ++ finishActions,
            finishProc {st with cached_value := none, cached_value_dirty := none},
            some {it with slot := none},
            if hasCompletion then [dflt] else [], false⟩

/-- Recognizer for the lock-acquire action. -/
def isAcq : PAction → Bool
  | PAction.acquireLock => true
  | _ => false

/-- Recognizer for the lock-release action. -/
def isRel : PAction → Bool
  | PAction.releaseLock => true
  | _ => false

/-- Recognizer for writes to the cached value or the dirty flag. -/
def isCacheWrite : PAction → Bool
  | PAction.writeCachedValue _ => true
  | PAction.writeDirty _ => true
  | _ => false

/-- Recognizer for writes to the in-progress flag. -/
def isInProgressWrite : PAction → Bool
  | PAction.writeInProgress _ => true
  | _ => false

/-- Recognizer for the compute call. -/
def isComputeCall : PAction → Bool
  | PAction.computeCall => true
  | _ => false

/-- Recognizer for the `add_shared_task` call. -/
def isTaskHandOff : PAction → Bool
  | PAction.addSharedTask => true
  | _ => false

/-- Whether the mutex is held just before position `i` of a trace: more
acquisitions than releases among the first `i` actions. -/
def heldAt (tr : List PAction) (i : Nat) : Bool :=
  decide ((tr.take i).countP isRel < (tr.take i).countP isAcq)

/-- Every action of the trace satisfying `p` happens while the mutex is
held. -/
def onlyUnderLock (p : PAction → Bool) (tr : List PAction) : Bool :=
  (List.range tr.length).all fun i =>
    !(p (tr.getD i PAction.acquireLock)) || heldAt tr i

/-- No action of the trace satisfying `p` happens while the mutex is
held. -/
def neverUnderLock (p : PAction → Bool) (tr : List PAction) : Bool :=
  (List.range tr.length).all fun i =>
    !(p (tr.getD i PAction.acquireLock)) || !(heldAt tr i)

end Processor

namespace Histogram

/-- Each event step preserves the reference balance: adds performed plus
the incoming slot indicator equal removes performed plus the outgoing slot
indicator, for every subject. -/
theorem stepEvent_balance (st : ThreadState) (e : HEvent) (s : Nat) :
    countAdds (stepEvent st e).2 s + slotInd st s
      = countRemoves (stepEvent st e).2 s + slotInd (stepEvent st e).1 s := by
  cases e with
  | notify d =>
    cases hd : st.data_item <;> cases d <;>
      simp [stepEvent, handle_data, countAdds, countRemoves, slotInd, hd,
        isAddOn, isRemoveOn, List.countP_cons, List.countP_append] <;>
      (try split) <;> (try split) <;> omega
  | loopPass =>
    cases hd : st.data_item <;>
      simp [stepEvent, grab_data, release_data, countAdds, countRemoves,
        slotInd, hd, isAddOn, isRemoveOn, List.countP_cons]

/-- Running any event list preserves the reference balance relative to the
slot indicators of the initial and final states. -/
theorem runEvents_balance (evts : List HEvent) (st : ThreadState) (s : Nat) :
    countAdds (runEvents st evts).2 s + slotInd st s
      = countRemoves (runEvents st evts).2 s + slotInd (runEvents st evts).1 s := by
  induction evts generalizing st with
  | nil => simp [runEvents, countAdds, countRemoves]
  | cons e es ih =>
    have h1 := stepEvent_balance st e s
    have h2 := ih (stepEvent st e).1
    simp only [runEvents]
    simp only [countAdds, countRemoves, List.countP_append] at h1 h2 ⊢
    omega

/-- `close` performs no adds and exactly the removes matching the residual
slot occupant. -/
theorem close_counts (st : ThreadState) (s : Nat) :
    countAdds (close st).2 s = 0 ∧ countRemoves (close st).2 s = slotInd st s := by
  cases hd : st.data_item <;>
    simp [close, countAdds, countRemoves, slotInd, hd, isAddOn, isRemoveOn,
      List.countP_cons]

/-- C3 counterexample: calling `handle_data` with subject 1 on an empty
pending slot performs the store first and the `add_ref` after it, so the
reference is not acquired before the subject is stored, contrary to the
claim. -/
theorem c3_add_ref_order_counterexample :
    (handle_data ⟨none⟩ (some 1)).2
        = [HAction.store (some 1), HAction.addRef 1] ∧
    ¬ ((handle_data ⟨none⟩ (some 1)).2.findIdx isAddAct
        < (handle_data ⟨none⟩ (some 1)).2.findIdx isStoreAct) := by
  decide

/-- C3 amended: for every `handle_data` call with a non-none subject, one
reference is released on the non-none subject it replaces before the store,
the new subject is stored, and one reference is acquired on it after the
store (not before). -/
theorem c3_add_ref_after_store (st : ThreadState) (s : Nat) :
    ((handle_data st (some s)).2 =
      (match st.data_item with
       | some o => [HAction.removeRef o]
       | none => ([] : List HAction)) ++
        [HAction.store (some s), HAction.addRef s]) ∧
    (handle_data st (some s)).2.findIdx isStoreAct
      < (handle_data st (some s)).2.findIdx isAddAct ∧
    (handle_data st (some s)).1 = ⟨some s⟩ := by
  cases hd : st.data_item <;>
    simp [handle_data, hd, isStoreAct, isAddAct, List.findIdx_cons]

/-- C4 confirmed: for every finite sequence of notifications and worker
loop passes starting from the empty slot and terminated by `close`, the
total number of `add_ref` calls equals the total number of `remove_ref`
calls on each subject. -/
theorem c4_no_ref_leak (evts : List HEvent) (s : Nat) :
    countAdds ((runEvents ⟨none⟩ evts).2
        ++ (close (runEvents ⟨none⟩ evts).1).2) s
      = countRemoves ((runEvents ⟨none⟩ evts).2
        ++ (close (runEvents ⟨none⟩ evts).1).2) s := by
  have h := runEvents_balance evts ⟨none⟩ s
  have hc := close_counts (runEvents ⟨none⟩ evts).1 s
  simp only [countAdds, countRemoves, List.countP_append] at h hc ⊢
  simp only [slotInd] at h hc
  omega

/-- C7 confirmed: two notifications with no intervening grab leave exactly
the second subject in the pending slot; the next `grab_data` returns it
(clearing the slot) and a further `grab_data` returns none, so exactly one
compute invocation results, on the second subject. -/
theorem c7_coalescing (st : ThreadState) (a b : Nat) :
    (handle_data (handle_data st (some a)).1 (some b)).1.data_item = some b ∧
    (grab_data (handle_data (handle_data st (some a)).1 (some b)).1).1
      = some b ∧
    (grab_data
      (grab_data (handle_data (handle_data st (some a)).1 (some b)).1).2).1
      = none := by
  simp [handle_data, grab_data]

/-- C10 confirmed: `close` releases one reference on the residual pending
subject but leaves the slot field unchanged, so a second `close` releases
one more reference on the same subject. -/
theorem c10_close_leaves_slot (st : ThreadState) (s : Nat)
    (h : st.data_item = some s) :
    (close st).1 = st ∧ (close st).2 = [HAction.removeRef s] ∧
    (close (close st).1).2 = [HAction.removeRef s] := by
  simp [close, h]

/-- C10 witness: a state whose slot holds subject 1. -/
theorem c10_close_leaves_slot_witness :
    (close ⟨some 1⟩).1 = (⟨some 1⟩ : ThreadState) ∧
    (close ⟨some 1⟩).2 = [HAction.removeRef 1] ∧
    (close (close ⟨some 1⟩).1).2 = [HAction.removeRef 1] :=
  c10_close_leaves_slot ⟨some 1⟩ 1 rfl

end Histogram

namespace Processor

/-- With a live owning item, `get_data` never raises and returns the
cached value when present, else the default. -/
theorem get_data_live_ret (it : ItemState) (di : DataItemState)
    (dflt : Option Nat) (st : ProcState) :
    (get_data (some it) di dflt st).raised = false ∧
    (get_data (some it) di dflt st).ret
      = (match st.cached_value with
         | some v => some v
         | none => dflt) := by
  by_cases hd : st.cached_value_dirty = some true <;>
    simp only [get_data, stalenessCheck, hd, reduceIte] <;>
    repeat' split
  all_goals simp_all

/-- A `get_data` call that finds the in-progress flag set schedules
nothing and leaves the processor state unchanged. -/
theorem get_data_busy (item : Option ItemState) (di : DataItemState)
    (dflt : Option Nat) (st : ProcState) (hip : st.in_progress = true) :
    (get_data item di dflt st).scheduled = false ∧
    (get_data item di dflt st).proc = st := by
  by_cases hd : st.cached_value_dirty = some true <;>
    simp only [get_data, stalenessCheck, hd, reduceIte] <;>
    repeat' split
  all_goals simp_all

/-- When `get_data` does hand a job to `add_shared_task`, the in-progress
flag was clear on entry, the trace is exactly the guarded hand-off, and
the resulting state has the flag set and the finish event cleared. -/
theorem get_data_sched (item : Option ItemState) (di : DataItemState)
    (dflt : Option Nat) (st : ProcState)
    (hs : (get_data item di dflt st).scheduled = true) :
    st.in_progress = false ∧
    (get_data item di dflt st).trace
      = [PAction.acquireLock, PAction.writeInProgress true,
         PAction.clearFinishEvent, PAction.addSharedTask,
         PAction.releaseLock] ∧
    (get_data item di dflt st).proc.in_progress = true ∧
    (get_data item di dflt st).proc.finish_event_set = false := by
  by_cases hd : st.cached_value_dirty = some true <;>
    simp only [get_data, stalenessCheck, hd, reduceIte] at hs ⊢ <;>
    repeat' split at hs <;> repeat' split
  all_goals simp_all

/-- The synchronous `get_data` path produces one of four traces. -/
theorem get_data_trace_cases (item : Option ItemState) (di : DataItemState)
    (dflt : Option Nat) (st : ProcState) :
    (get_data item di dflt st).trace = [] ∨
    (get_data item di dflt st).trace
      = [PAction.acquireLock, PAction.releaseLock] ∨
    (get_data item di dflt st).trace
      = [PAction.acquireLock, PAction.writeInProgress true,
         PAction.clearFinishEvent, PAction.releaseLock] ∨
    (get_data item di dflt st).trace
      = [PAction.acquireLock, PAction.writeInProgress true,
         PAction.clearFinishEvent, PAction.addSharedTask,
         PAction.releaseLock] := by
  by_cases hd : st.cached_value_dirty = some true <;>
    simp only [get_data, stalenessCheck, hd, reduceIte] <;>
    repeat' split
  all_goals simp_all

/-- With a live item and a closed data item, `get_data` schedules nothing,
performs no actions, and leaves the state unchanged. -/
theorem get_data_closed (it : ItemState) (di : DataItemState)
    (dflt : Option Nat) (st : ProcState) (hclosed : di.closed = true) :
    (get_data (some it) di dflt st).scheduled = false ∧
    (get_data (some it) di dflt st).proc = st ∧
    (get_data (some it) di dflt st).trace = [] := by
  by_cases hd : st.cached_value_dirty = some true <;>
    simp only [get_data, stalenessCheck, hd, reduceIte] <;>
    repeat' split
  all_goals simp_all

/-- C1 counterexample: with the cache dirty, a cached value 7 present and
a job in flight, a computation that raises leaves the in-progress flag set
(it is not cleared); a subsequent `get_data` observing the dirty cache
therefore schedules no new computation, contrary to the claim. -/
theorem c1_exception_counterexample :
    (load_data_on_thread (some 3) (fun _ => ComputeResult.exn) none false
        (some ⟨true, some (some 7)⟩)
        ⟨some 7, some true, true, false⟩).raised = true ∧
    (load_data_on_thread (some 3) (fun _ => ComputeResult.exn) none false
        (some ⟨true, some (some 7)⟩)
        ⟨some 7, some true, true, false⟩).proc.in_progress = true ∧
    (get_data (some ⟨true, some (some 7)⟩) ⟨false, [some 3]⟩ none
        (load_data_on_thread (some 3) (fun _ => ComputeResult.exn) none false
          (some ⟨true, some (some 7)⟩)
          ⟨some 7, some true, true, false⟩).proc).scheduled = false := by
  decide

/-- C1 amended: when the computation function raises inside the job, the
exception is logged and re-raised at the job boundary and the finish event
is set, but the in-flight flag is NOT cleared, so a subsequent `get_data`
observing a dirty cache schedules no new computation; the previously
cached value remains visible to readers (`get_data` still returns it). -/
theorem c1_exception_keeps_in_progress (st : ProcState)
    (item : Option ItemState) (d : Nat) (dflt : Option Nat) (hc : Bool)
    (di : DataItemState) (hip : st.in_progress = true)
    (hdirty : st.cached_value_dirty = some true) :
    (load_data_on_thread (some d) (fun _ => ComputeResult.exn) dflt hc
        item st).raised = true ∧
    (load_data_on_thread (some d) (fun _ => ComputeResult.exn) dflt hc
        item st).trace = [PAction.computeCall, PAction.setFinishEvent] ∧
    (load_data_on_thread (some d) (fun _ => ComputeResult.exn) dflt hc
        item st).proc = {st with finish_event_set := true} ∧
    (load_data_on_thread (some d) (fun _ => ComputeResult.exn) dflt hc
        item st).proc.in_progress = true ∧
    (load_data_on_thread (some d) (fun _ => ComputeResult.exn) dflt hc
        item st).proc.cached_value = st.cached_value ∧
    (load_data_on_thread (some d) (fun _ => ComputeResult.exn) dflt hc
        item st).completionCalls = [] ∧
    (get_data item di dflt
        (load_data_on_thread (some d) (fun _ => ComputeResult.exn) dflt hc
          item st).proc).scheduled = false ∧
    (get_data item di dflt
        (load_data_on_thread (some d) (fun _ => ComputeResult.exn) dflt hc
          item st).proc).raised = false ∧
    (get_data item di dflt
        (load_data_on_thread (some d) (fun _ => ComputeResult.exn) dflt hc
          item st).proc).ret
      = (match st.cached_value with
         | some v => some v
         | none => dflt) := by
  refine ⟨rfl, rfl, rfl, by simp [load_data_on_thread, hip],
    by simp [load_data_on_thread], rfl, ?_, ?_, ?_⟩ <;>
    simp only [load_data_on_thread, get_data, stalenessCheck, hdirty,
      reduceIte] <;>
    repeat' split
  all_goals simp_all

/-- C1 witness: dirty cache, cached value 7, job in flight, computation
raising. -/
theorem c1_exception_keeps_in_progress_witness :
    (load_data_on_thread (some 3) (fun _ => ComputeResult.exn) none false
        (some ⟨true, some (some 7)⟩)
        ⟨some 7, some true, true, false⟩).proc.in_progress = true ∧
    (get_data (some ⟨true, some (some 7)⟩) ⟨false, [some 3]⟩ none
        (load_data_on_thread (some 3) (fun _ => ComputeResult.exn) none false
          (some ⟨true, some (some 7)⟩)
          ⟨some 7, some true, true, false⟩).proc).ret = some 7 :=
  ⟨(c1_exception_keeps_in_progress ⟨some 7, some true, true, false⟩
      (some ⟨true, some (some 7)⟩) 3 none false ⟨false, [some 3]⟩
      rfl rfl).2.2.2.1,
   (c1_exception_keeps_in_progress ⟨some 7, some true, true, false⟩
      (some ⟨true, some (some 7)⟩) 3 none false ⟨false, [some 3]⟩
      rfl rfl).2.2.2.2.2.2.2.2⟩

/-- C2 counterexample: with the local shadow flag unset and the Subject
reporting the slot clean, the code's staleness test is false and `get_data`
does not enter the scheduling branch, while the claimed rule
(dirty-or-unset) says the value is stale. -/
theorem c2_unset_flag_counterexample :
    stalenessCheck ⟨none, none, false, true⟩ (some ⟨false, none⟩)
      = Except.ok false ∧
    specStaleness ⟨none, none, false, true⟩ ⟨false, none⟩ = true ∧
    (get_data (some ⟨false, none⟩) ⟨false, [some 3]⟩ none
        ⟨none, none, false, true⟩).scheduled = false ∧
    (get_data (some ⟨false, none⟩) ⟨false, [some 3]⟩ none
        ⟨none, none, false, true⟩).trace = [] :=
  ⟨rfl, rfl, rfl, rfl⟩

/-- C2 amended: the value is considered stale exactly when the local
shadow flag is set AND dirty, or the Subject reports the named cache slot
dirty; an instance whose local flag is still unset defers entirely to
`is_cached_value_dirty`. -/
theorem c2_staleness_set_and_dirty (st : ProcState) (it : ItemState) :
    stalenessCheck st (some it)
      = Except.ok (decide (st.cached_value_dirty = some true)
          || it.slot_dirty) := by
  by_cases hd : st.cached_value_dirty = some true <;>
    simp [stalenessCheck, hd]

/-- C5 confirmed: a `get_data` call that finds the in-progress flag set
does not schedule a second job; when a job is scheduled the flag was clear
on entry and the trace sets the flag and clears the finish event under the
mutex before the hand-off to `add_shared_task` (which happens while the
mutex is held). -/
theorem c5_single_flight (item : Option ItemState) (di : DataItemState)
    (dflt : Option Nat) (st : ProcState) :
    (st.in_progress = true →
      (get_data item di dflt st).scheduled = false ∧
      (get_data item di dflt st).proc = st) ∧
    ((get_data item di dflt st).scheduled = true →
      st.in_progress = false ∧
      (get_data item di dflt st).trace
        = [PAction.acquireLock, PAction.writeInProgress true,
           PAction.clearFinishEvent, PAction.addSharedTask,
           PAction.releaseLock] ∧
      (get_data item di dflt st).proc.in_progress = true ∧
      (get_data item di dflt st).proc.finish_event_set = false ∧
      heldAt (get_data item di dflt st).trace 3 = true ∧
      onlyUnderLock isTaskHandOff (get_data item di dflt st).trace = true) := by
  refine ⟨fun hip => get_data_busy item di dflt st hip, fun hs => ?_⟩
  obtain ⟨h1, h2, h3, h4⟩ := get_data_sched item di dflt st hs
  refine ⟨h1, h2, h3, h4, ?_, ?_⟩ <;> rw [h2] <;> rfl

/-- C5 witness: a busy instance schedules nothing; an idle stale instance
hands off exactly one guarded job. -/
theorem c5_single_flight_witness :
    (get_data (some ⟨true, none⟩) ⟨false, [some 3]⟩ none
        ⟨none, some true, true, true⟩).scheduled = false ∧
    (get_data (some ⟨true, none⟩) ⟨false, [some 3]⟩ none
        ⟨none, some true, false, true⟩).trace
      = [PAction.acquireLock, PAction.writeInProgress true,
         PAction.clearFinishEvent, PAction.addSharedTask,
         PAction.releaseLock] :=
  ⟨((c5_single_flight (some ⟨true, none⟩) ⟨false, [some 3]⟩ none
      ⟨none, some true, true, true⟩).1 rfl).1,
   ((c5_single_flight (some ⟨true, none⟩) ⟨false, [some 3]⟩ none
      ⟨none, some true, false, true⟩).2 (by decide)).2.1⟩

/-- C6 counterexample: with a live item, a dirty cache, a cached value 5
and a closed data item, `get_data` schedules nothing, performs no cache
clearing at all (state unchanged, empty trace), and returns the cached
value 5 rather than the configured default (none), contrary to the claim
that a closed subject leads to cache removal and the default value. -/
theorem c6_closed_subject_counterexample :
    (get_data (some ⟨true, some (some 5)⟩) ⟨true, [some 3]⟩ none
        ⟨some 5, some true, false, true⟩).scheduled = false ∧
    (get_data (some ⟨true, some (some 5)⟩) ⟨true, [some 3]⟩ none
        ⟨some 5, some true, false, true⟩).trace = [] ∧
    (get_data (some ⟨true, some (some 5)⟩) ⟨true, [some 3]⟩ none
        ⟨some 5, some true, false, true⟩).proc
      = ⟨some 5, some true, false, true⟩ ∧
    (get_data (some ⟨true, some (some 5)⟩) ⟨true, [some 3]⟩ none
        ⟨some 5, some true, false, true⟩).ret = some 5 := by
  decide

/-- C6 amended: only unavailable raw data (`data_outputs[0].data` none) is
treated as the no-result outcome — the job removes the Subject's cache
slot, resets the local shadow cache to absent, hands the default to the
completion callback, and a later `get_data` returns the default. A closed
subject instead skips scheduling entirely: no job, no cache clearing, and
`get_data` returns the existing cached value when present, else the
default. -/
theorem c6_no_result_vs_closed (st : ProcState) (it : ItemState)
    (cr : ComputeResult) (dflt : Option Nat) (hc : Bool)
    (di di2 : DataItemState) (hclosed : di.closed = true) :
    ((load_data_on_thread none (fun _ => cr) dflt hc (some it) st).item
        = some {it with slot := none} ∧
     (load_data_on_thread none (fun _ => cr) dflt hc (some it) st).trace
        = removalActions ++ finishActions ∧
     (load_data_on_thread none (fun _ => cr) dflt hc
        (some it) st).proc.cached_value = none ∧
     (load_data_on_thread none (fun _ => cr) dflt hc
        (some it) st).proc.cached_value_dirty = none ∧
     (load_data_on_thread none (fun _ => cr) dflt hc
        (some it) st).proc.in_progress = false ∧
     (load_data_on_thread none (fun _ => cr) dflt hc
        (some it) st).completionCalls = (if hc then [dflt] else []) ∧
     (load_data_on_thread none (fun _ => cr) dflt hc (some it) st).raised
        = false ∧
     (get_data (some {it with slot := none}) di2 dflt
        (load_data_on_thread none (fun _ => cr) dflt hc
          (some it) st).proc).ret = dflt ∧
     (get_data (some {it with slot := none}) di2 dflt
        (load_data_on_thread none (fun _ => cr) dflt hc
          (some it) st).proc).raised = false) ∧
    ((get_data (some it) di dflt st).scheduled = false ∧
     (get_data (some it) di dflt st).proc = st ∧
     (get_data (some it) di dflt st).trace = [] ∧
     (get_data (some it) di dflt st).ret
       = (match st.cached_value with
          | some v => some v
          | none => dflt)) := by
  obtain ⟨hr, hret⟩ := get_data_live_ret ({it with slot := none}) di2 dflt
    (load_data_on_thread none (fun _ => cr) dflt hc (some it) st).proc
  obtain ⟨hs2, hp2, ht2⟩ := get_data_closed it di dflt st hclosed
  obtain ⟨hr2, hret2⟩ := get_data_live_ret it di dflt st
  exact ⟨⟨rfl, rfl, rfl, rfl, rfl, rfl, rfl, hret, hr⟩,
    hs2, hp2, ht2, hret2⟩

/-- C6 witness: a no-result job run on a live dirty item followed by a
read, and a `get_data` call against a closed data item with a cached
value. -/
theorem c6_no_result_vs_closed_witness :
    (load_data_on_thread none (fun _ => ComputeResult.exn) (some 0) true
        (some ⟨true, some (some 5)⟩)
        ⟨some 5, some true, true, false⟩).proc.cached_value = none ∧
    (get_data (some ⟨true, none⟩) ⟨false, [some 3]⟩ (some 0)
        (load_data_on_thread none (fun _ => ComputeResult.exn) (some 0) true
          (some ⟨true, some (some 5)⟩)
          ⟨some 5, some true, true, false⟩).proc).ret = some 0 ∧
    (get_data (some ⟨true, some (some 5)⟩) ⟨true, [some 3]⟩ (some 0)
        ⟨some 5, some true, false, true⟩).ret = some 5 :=
  ⟨(c6_no_result_vs_closed ⟨some 5, some true, true, false⟩
      ⟨true, some (some 5)⟩ ComputeResult.exn (some 0) true
      ⟨true, [some 3]⟩ ⟨false, [some 3]⟩ rfl).1.2.2.1,
   (c6_no_result_vs_closed ⟨some 5, some true, true, false⟩
      ⟨true, some (some 5)⟩ ComputeResult.exn (some 0) true
      ⟨true, [some 3]⟩ ⟨false, [some 3]⟩ rfl).1.2.2.2.2.2.2.2.1,
   (c6_no_result_vs_closed ⟨some 5, some true, false, true⟩
      ⟨true, some (some 5)⟩ ComputeResult.exn (some 0) true
      ⟨true, [some 3]⟩ ⟨false, [some 3]⟩ rfl).2.2.2.2⟩

/-- C8 counterexample: on the successful computation path the final
cache-write (`writeCachedValue` at trace position 2) happens while the
mutex is NOT held, and `set_cached_value_dirty` writes the dirty flag in a
trace containing no lock acquisition at all, contrary to the claim that
the cache entry is mutated only under the lock and that the final
cache-write is lock-protected. -/
theorem c8_unlocked_cache_write_counterexample :
    (load_data_on_thread (some 3) (fun _ => ComputeResult.ok (some 9)) none
        false (some ⟨true, none⟩)
        ⟨none, some true, true, false⟩).trace.getD 2 PAction.acquireLock
      = PAction.writeCachedValue (some 9) ∧
    heldAt (load_data_on_thread (some 3) (fun _ => ComputeResult.ok (some 9))
        none false (some ⟨true, none⟩)
        ⟨none, some true, true, false⟩).trace 2 = false ∧
    set_cached_value_dirty (some ⟨false, none⟩) ⟨none, none, false, true⟩
      = Except.ok (⟨true, none⟩, ⟨none, some true, false, true⟩,
          [PAction.itemSetCachedValueDirty, PAction.writeDirty (some true)]) ∧
    ([PAction.itemSetCachedValueDirty,
      PAction.writeDirty (some true)].countP isAcq) = 0 :=
  ⟨rfl, rfl, rfl, rfl⟩

/-- C8 amended: the in-progress flag is the only part of the cache entry
mutated while the mutex is held; the cached value and dirty flag are
written with the mutex free, the compute call runs lock-free, and the
hand-off to `add_shared_task` is lock-protected. -/
theorem c8_lock_discipline (upstream : Option Nat) (cr : ComputeResult)
    (dflt : Option Nat) (hc : Bool) (item item2 : Option ItemState)
    (st st2 : ProcState) (di : DataItemState) :
    neverUnderLock isComputeCall
      (load_data_on_thread upstream (fun _ => cr) dflt hc item st).trace
      = true ∧
    onlyUnderLock isInProgressWrite
      (load_data_on_thread upstream (fun _ => cr) dflt hc item st).trace
      = true ∧
    neverUnderLock isCacheWrite
      (load_data_on_thread upstream (fun _ => cr) dflt hc item st).trace
      = true ∧
    onlyUnderLock isInProgressWrite (get_data item2 di dflt st2).trace
      = true ∧
    onlyUnderLock isTaskHandOff (get_data item2 di dflt st2).trace
      = true := by
  have hg := get_data_trace_cases item2 di dflt st2
  have hload : neverUnderLock isComputeCall
      (load_data_on_thread upstream (fun _ => cr) dflt hc item st).trace
        = true ∧
      onlyUnderLock isInProgressWrite
        (load_data_on_thread upstream (fun _ => cr) dflt hc item st).trace
        = true ∧
      neverUnderLock isCacheWrite
        (load_data_on_thread upstream (fun _ => cr) dflt hc item st).trace
        = true := by
    cases upstream <;> cases item <;> rcases cr with ⟨_ | w⟩ | _ <;>
      exact ⟨rfl, rfl, rfl⟩
  refine ⟨hload.1, hload.2.1, hload.2.2, ?_, ?_⟩ <;>
    rcases hg with h | h | h | h <;> rw [h] <;> rfl

/-- C9 confirmed: once the weakly referenced owner has been collected the
`item` property yields none, and every operation that then touches the
owner — `set_cached_value_dirty`, `data_item_changed`, the staleness check
of `get_data` (whenever it must consult the item, i.e. the local flag is
not set-and-dirty), and the cache writes of the job body — raises an
attribute error instead of returning absent or the default value. -/
theorem c9_dead_item_attribute_error (st : ProcState) (di : DataItemState)
    (dflt : Option Nat) (d : Nat) (v : Option Nat) (hc : Bool)
    (hnd : ¬ st.cached_value_dirty = some true) :
    get_item true none = none ∧
    set_cached_value_dirty none st = Except.error () ∧
    data_item_changed none st = Except.error () ∧
    stalenessCheck st none = Except.error () ∧
    (get_data none di dflt st).raised = true ∧
    (load_data_on_thread (some d) (fun _ => ComputeResult.ok v) dflt hc
        none st).raised = true ∧
    (load_data_on_thread none (fun _ => ComputeResult.ok v) dflt hc
        none st).raised = true := by
  refine ⟨rfl, rfl, rfl, ?_, ?_, rfl, rfl⟩ <;>
    simp [get_data, stalenessCheck, hnd]

/-- C9 witness: a never-computed instance with a collected owner. -/
theorem c9_dead_item_attribute_error_witness :
    set_cached_value_dirty none ⟨none, none, false, true⟩
      = Except.error () ∧
    stalenessCheck ⟨none, none, false, true⟩ none = Except.error () ∧
    (get_data none ⟨false, [some 1]⟩ none
      ⟨none, none, false, true⟩).raised = true :=
  ⟨(c9_dead_item_attribute_error ⟨none, none, false, true⟩
      ⟨false, [some 1]⟩ none 0 none false (by decide)).2.1,
   (c9_dead_item_attribute_error ⟨none, none, false, true⟩
      ⟨false, [some 1]⟩ none 0 none false (by decide)).2.2.2.1,
   (c9_dead_item_attribute_error ⟨none, none, false, true⟩
      ⟨false, [some 1]⟩ none 0 none false (by decide)).2.2.2.2.1⟩

end Processor
